import Mathlib

/-!
# Verification of the jira-report CLI (src/jira_report/cli.py)

Shallow embedding of the report-generation pipeline of the repository
bzaczynski/jira-report: date arithmetic, the JQL query builder, the
blacklist (exclusion) filter, the proportional hours-distribution formula
and the spreadsheet export, together with an effect-trace model of the
`main`/`run` orchestration.

Python `datetime.date` values become a `Date` structure; machine floats in
the hours formula are modelled by exact rationals `ℚ` (the declared formula
semantics); fallible steps (remote fetch, argument parsing) are modelled by
`Except`/`Option`; logging, the remote call and the file write become an
explicit list of `Effect`s.
-/

set_option autoImplicit false

namespace JiraReport

/-- One Jira issue as consumed by the script: `issue.id`, `issue.key`,
`issue.permalink()`, `issue.fields.project.name`, `issue.fields.created`
(ISO-8601 text), `issue.fields.summary`, and the optional story-points
custom field `customfield_10020` (a float, modelled as `ℚ`). -/
structure Issue where
  id : String
  key : String
  permalink : String
  projectName : String
  created : String
  summary : String
  storyPoints : Option ℚ
  deriving DecidableEq, Repr

/-- `story_points(issue)`: return `issue.fields.customfield_10020`, or
`None` when the attribute is missing (the `except AttributeError` branch);
the attribute-presence test becomes the `Option` itself. -/
def story_points (issue : Issue) : Option ℚ :=
  issue.storyPoints

/-- Python `str.strip()`: remove leading and trailing whitespace, modelled
structurally over the character list. -/
def pyStrip (s : String) : String :=
  String.mk ((((s.toList.dropWhile Char.isWhitespace).reverse).dropWhile
    Char.isWhitespace).reverse)

/-- Blacklist-file parsing from `blacklist`:
`[x.strip() for x in blacklist_path.read_text().split('\n') if x != '']` —
the raw lines are filtered for non-emptiness first, then each survivor is
stripped of surrounding whitespace. -/
def parseBlacklistLines (lines : List String) : List String :=
  (lines.filter (fun x => x ≠ "")).map pyStrip

/-- The `for issue in issues` loop of `blacklist`: fold from the left,
counting skipped (blacklisted) issues and appending every kept issue to the
accumulator, exactly as the imperative loop does. Result:
`(skipped, filtered_issues)`. -/
def blacklistLoop (blacklisted : List String) (issues : List Issue) :
    Nat × List Issue :=
  issues.foldl
    (fun acc issue =>
      if issue.key ∈ blacklisted then (acc.1 + 1, acc.2)
      else (acc.1, acc.2 ++ [issue]))
    (0, [])

/-- The pure content of `blacklist(blacklist_path, issues)`: with no
blacklist path the issue list is returned unchanged; otherwise the loop
above filters it against the parsed blacklist file. -/
def blacklistKept (blacklistLines : Option (List String))
    (issues : List Issue) : List Issue :=
  match blacklistLines with
  | none => issues
  | some lines => (blacklistLoop (parseBlacklistLines lines) issues).2

/-- The predicate under which `blacklist` keeps an issue:
`issue.key not in blacklisted`. -/
def keptBy (blacklisted : List String) (issue : Issue) : Bool :=
  decide (issue.key ∉ blacklisted)

theorem blacklistLoop_go (blacklisted : List String) (issues : List Issue)
    (n : Nat) (acc : List Issue) :
    issues.foldl
      (fun acc issue =>
        if issue.key ∈ blacklisted then (acc.1 + 1, acc.2)
        else (acc.1, acc.2 ++ [issue]))
      (n, acc)
      = (n + (issues.filter (fun i => !keptBy blacklisted i)).length,
         acc ++ issues.filter (keptBy blacklisted)) := by
  induction issues generalizing n acc with
  | nil => simp
  | cons i rest ih =>
    by_cases h : i.key ∈ blacklisted
    · simp only [List.foldl_cons, if_pos h, ih, List.filter_cons, keptBy, h,
        decide_not]
      simp [h]
      omega
    · simp only [List.foldl_cons, if_neg h, ih, List.filter_cons, keptBy, h,
        decide_not]
      simp [h]

/-- The loop of `blacklist` computes precisely the stable filter by
`issue.key not in blacklisted`, together with the number of skipped
issues. -/
theorem blacklistLoop_eq (blacklisted : List String) (issues : List Issue) :
    blacklistLoop blacklisted issues
      = ((issues.filter (fun i => !keptBy blacklisted i)).length,
         issues.filter (keptBy blacklisted)) := by
  simpa using blacklistLoop_go blacklisted issues 0 []

theorem blacklistKept_some (lines : List String) (issues : List Issue) :
    blacklistKept (some lines) issues
      = issues.filter (keptBy (parseBlacklistLines lines)) := by
  simp [blacklistKept, blacklistLoop_eq]

/-- A sample issue used in concrete evaluations; only the `key` varies. -/
def mkIssue (key : String) : Issue :=
  { id := "10000", key := key, permalink := "https://example.atlassian.net/browse/" ++ key,
    projectName := "Proj", created := "2021-02-01T10:00:00.000+0000",
    summary := "task", storyPoints := none }

/-- C3: the exclusion filter returns a stable subsequence of its input: with
no blacklist it is the identity; with a blacklist file it equals the stable
filter keeping exactly the issues whose key is not among the parsed entries
(non-empty lines, each whitespace-trimmed), hence an issue is dropped iff
its key matches an entry, order preserved; on keys A, B, C with exclusion
list containing "B" exactly A and C remain, in that order. -/
theorem exclusion_filter_stable_subsequence :
    (∀ issues : List Issue, blacklistKept none issues = issues)
    ∧ (∀ (lines : List String) (issues : List Issue),
        blacklistKept (some lines) issues
          = issues.filter (keptBy (parseBlacklistLines lines))
        ∧ (blacklistKept (some lines) issues).Sublist issues)
    ∧ blacklistKept (some ["B"]) [mkIssue "A", mkIssue "B", mkIssue "C"]
        = [mkIssue "A", mkIssue "C"] := by
  refine ⟨fun issues => rfl, fun lines issues => ⟨blacklistKept_some lines issues, ?_⟩, ?_⟩
  · rw [blacklistKept_some]
    exact List.filter_sublist issues
  · decide

/-- C7: exclusion filtering is idempotent — filtering an already-filtered
list with the same blacklist yields the same list. -/
theorem exclusion_filter_idempotent (blacklistLines : Option (List String))
    (issues : List Issue) :
    blacklistKept blacklistLines (blacklistKept blacklistLines issues)
      = blacklistKept blacklistLines issues := by
  cases blacklistLines with
  | none => rfl
  | some lines =>
    rw [blacklistKept_some, blacklistKept_some, List.filter_filter]
    simp

/-- A Python `datetime.date`: year, month (1–12), day (1–31). -/
structure Date where
  year : Nat
  month : Nat
  day : Nat
  deriving DecidableEq, Repr

/-- Gregorian leap-year rule, as used by Python `calendar`. -/
def isLeap (year : Nat) : Bool :=
  year % 4 = 0 && (year % 100 ≠ 0 || year % 400 = 0)

/-- `month_days(date)`: `calendar.monthrange(date.year, date.month)[1]`,
the number of days in the month of the given date. -/
def month_days (date : Date) : Nat :=
  match date.month with
  | 1 => 31
  | 2 => if isLeap date.year then 29 else 28
  | 3 => 31
  | 4 => 30
  | 5 => 31
  | 6 => 30
  | 7 => 31
  | 8 => 31
  | 9 => 30
  | 10 => 31
  | 11 => 30
  | 12 => 31
  | _ => 0

/-- Day ordinal of a Gregorian calendar date (days since 0000-03-01, the
standard days-from-civil computation), used to give every date a linear
position so that weekdays are ordinals mod 7. `ratadie 1970 1 1 = 719468`,
a Thursday, and `719468 % 7 = 1`, so residue 3 is Saturday and residue 4 is
Sunday. -/
def ratadie (y m d : Nat) : Nat :=
  let yAdj := if m ≤ 2 then y - 1 else y
  let era := yAdj / 400
  let yoe := yAdj % 400
  let doy := if m ≤ 2 then (153 * (m + 9) + 2) / 5 + d - 1
             else (153 * (m - 3) + 2) / 5 + d - 1
  let doe := yoe * 365 + yoe / 4 - yoe / 100 + doy
  era * 146097 + doe

/-- A day ordinal falls on Monday–Friday (not Saturday, residue 3, and not
Sunday, residue 4). -/
def isBusinessOrd (o : Nat) : Bool :=
  o % 7 ≠ 3 && o % 7 ≠ 4

/-- `workdays.networkdays(start_date, end_date)` (external library, no
holidays): the number of Monday–Friday dates in the inclusive ordinal range
`[s, e]`. -/
def networkdays (s e : Nat) : Nat :=
  ((List.range (e + 1 - s)).filter (fun k => isBusinessOrd (s + k))).length

/-- `month_hours(date, business_days)`: when the `--days` override is
absent, count the business days from the first to the last day of the
month of `date`; either way return `business_days * 8`. -/
def month_hours (date : Date) (business_days : Option Int) : Int :=
  match business_days with
  | some b => b * 8
  | none =>
      (networkdays (ratadie date.year date.month 1)
        (ratadie date.year date.month (month_days date)) : Int) * 8

/-- C6 counterexample: with an overridden business-day count of 0 for month
2021/02, `month_hours` returns `0 * 8 = 0`, not
`businessDays(2021-02-01, 2021-02-28) * 8 = 160`: an explicit override is
used as given and never replaced by the computed business-day count. -/
theorem month_hours_override_zero_counterexample :
    month_hours ⟨2021, 2, 1⟩ (some 0) = 0
    ∧ (networkdays (ratadie 2021 2 1) (ratadie 2021 2 28) : Int) * 8 = 160
    ∧ month_hours ⟨2021, 2, 1⟩ (some 0)
        ≠ (networkdays (ratadie 2021 2 1) (ratadie 2021 2 28) : Int) * 8 := by
  refine ⟨rfl, by decide, by decide⟩

/-- C6 amended: `month_hours(period, override)` returns `override × 8`
whenever an override is given (so override 0 yields 0), and
`businessDays(period.start, period.end) × 8` otherwise; in particular for
month 2021/02 (28 days, non-leap year) with no override it equals
`businessDays(2021-02-01, 2021-02-28) * 8`. -/
theorem month_hours_spec :
    (∀ (d : Date) (b : Int), month_hours d (some b) = b * 8)
    ∧ (∀ d : Date, month_hours d none
        = (networkdays (ratadie d.year d.month 1)
            (ratadie d.year d.month (month_days d)) : Int) * 8)
    ∧ month_hours ⟨2021, 2, 1⟩ none
        = (networkdays (ratadie 2021 2 1) (ratadie 2021 2 28) : Int) * 8 :=
  ⟨fun _ _ => rfl, fun _ => rfl, by decide⟩

/-- `hours_worked(row, issues)`: the spreadsheet formula text
`H{row+1}/SUM(H2:H{len(issues)+1})*H1` placed into the hours cell of the
1-indexed `row`. -/
def hours_worked (row : Nat) (issues : List Issue) : String :=
  "H" ++ toString (row + 1) ++ "/SUM(H2:H" ++ toString (issues.length + 1)
    ++ ")*H1"

/-- The helper column H as rendered by `xls_export`: cell H1 holds the
total hours, cell H(i+1) (for the 1-indexed issue row i) holds that row's
weight value w_i. Cells are 1-indexed as in the spreadsheet. -/
def helperCol (w : List ℚ) (H : ℚ) (j : Nat) : ℚ :=
  if j = 1 then H else w.getD (j - 2) 0

/-- Arithmetic denotation of `SUM(H2:H{n+1})` over the helper column. -/
def sumH (w : List ℚ) (H : ℚ) : ℚ :=
  ((List.range w.length).map (fun k => helperCol w H (k + 2))).sum

/-- Arithmetic denotation of the `hours_worked` formula of the 1-indexed
row `i`: `H(i+1) / SUM(H2:H(n+1)) * H1`. -/
def hoursWorkedValue (w : List ℚ) (H : ℚ) (i : Nat) : ℚ :=
  helperCol w H (i + 1) / sumH w H * helperCol w H 1

/-- The sum of the per-row allocated-hours values over all `n` rendered
rows (1-indexed rows 1..n). -/
def totalAllocated (w : List ℚ) (H : ℚ) : ℚ :=
  ((List.range w.length).map (fun k => hoursWorkedValue w H (k + 1))).sum

theorem map_getD_range (w : List ℚ) :
    (List.range w.length).map (fun k => w.getD k 0) = w := by
  induction w with
  | nil => rfl
  | cons a t ih =>
    rw [List.length_cons, List.range_succ_eq_map, List.map_cons, List.map_map]
    simp only [Function.comp_def, List.getD_cons_zero, List.getD_cons_succ]
    rw [ih]

theorem helperCol_succ_succ (w : List ℚ) (H : ℚ) (k : Nat) :
    helperCol w H (k + 2) = w.getD k 0 := by
  rw [helperCol, if_neg (by omega)]
  norm_num

theorem sumH_eq_sum (w : List ℚ) (H : ℚ) : sumH w H = w.sum := by
  simp only [sumH, helperCol_succ_succ]
  rw [map_getD_range]

/-- C1: for every list of n ≥ 1 weights w with non-zero sum and every total
H ≥ 0 stored in the hidden cell H1, the rendered rows' allocated-hours
values `w_i / sum(w_1..w_n) * H` add up to exactly H. -/
theorem allocated_hours_sum_exact (w : List ℚ) (H : ℚ)
    (hn : w ≠ []) (hH : 0 ≤ H) (hw : w.sum ≠ 0) :
    totalAllocated w H = H := by
  have hrow : ∀ k : Nat,
      hoursWorkedValue w H (k + 1) = w.getD k 0 * (w.sum⁻¹ * H) := by
    intro k
    rw [hoursWorkedValue, helperCol_succ_succ, sumH_eq_sum]
    have h1 : helperCol w H 1 = H := rfl
    rw [h1, div_eq_mul_inv, mul_assoc]
  simp only [totalAllocated, hrow]
  rw [List.sum_map_mul_right, map_getD_range, ← mul_assoc,
    mul_inv_cancel₀ hw, one_mul]

/-- C1 witness: two rows with weights 1 and 2 and 160 total hours; the two
formula values 1/3·160 and 2/3·160 add up to exactly 160. -/
theorem allocated_hours_sum_exact_witness :
    ([1, 2] : List ℚ) ≠ [] ∧ (0 : ℚ) ≤ 160 ∧ ([1, 2] : List ℚ).sum ≠ 0
    ∧ totalAllocated [1, 2] 160 = 160 := by
  refine ⟨by simp, by norm_num, by norm_num, ?_⟩
  exact allocated_hours_sum_exact [1, 2] 160 (by simp) (by norm_num)
    (by norm_num)

/-- Zero-padded two-digit formatting, Python `f'{n:02}'` for `n < 100`. -/
def pad2 (n : Nat) : String :=
  if n < 10 then "0" ++ toString n else toString n

/-- `jql(date)`: the JQL query selecting issues assigned to the current
user between the first and the last day of the month of `date`, ordered by
creation time ascending. -/
def jql (date : Date) : String :=
  "assignee was currentUser() DURING (\"" ++ toString date.year ++ "/"
    ++ pad2 date.month ++ "/01\", \"" ++ toString date.year ++ "/"
    ++ pad2 date.month ++ "/" ++ pad2 (month_days date)
    ++ "\") ORDER BY created ASC"

/-- Full English month name, Python `strftime` directive `%B`. -/
def monthName (m : Nat) : String :=
  match m with
  | 1 => "January"
  | 2 => "February"
  | 3 => "March"
  | 4 => "April"
  | 5 => "May"
  | 6 => "June"
  | 7 => "July"
  | 8 => "August"
  | 9 => "September"
  | 10 => "October"
  | 11 => "November"
  | 12 => "December"
  | _ => ""

/-- `args.date.strftime("%Y_%B")` from `main`: the report title. -/
def reportTitle (date : Date) : String :=
  toString date.year ++ "_" ++ monthName date.month

/-- `f'Jira_{title}.xls'` from `main`: the output filename. -/
def reportFilename (date : Date) : String :=
  "Jira_" ++ reportTitle date ++ ".xls"

/-- The log messages the script can emit, one constructor per `LOGGER`
call site, carrying the data interpolated into the format string. -/
inductive LogMsg where
  | collision (filename : String)
  | querying
  | usingBlacklist (path : String)
  | skipped (n : Nat)
  | found (n : Nat)
  | noTasks
  | businessDays (b : Int)
  | exported (path : String)
  | valueErr (msg : String)
  | aborted
  deriving DecidableEq, Repr

/-- The exact text of each log message, as formatted by the script. -/
def LogMsg.render : LogMsg → String
  | .collision filename =>
      "File already exists: \"" ++ filename ++ "\", use the -f flag to overwrite"
  | .querying => "Querying Jira..."
  | .usingBlacklist path => "Using blacklist from: " ++ path
  | .skipped n => "Skipped " ++ toString n ++ " blacklisted issues"
  | .found n => "Found " ++ toString n ++ " tasks assigned to you during that period."
  | .noTasks => "There were no tasks assigned to you during that period."
  | .businessDays b =>
      "Business days=" ++ toString b ++ " (" ++ toString (b * 8) ++ " hours)"
  | .exported path => "Exported file: \"" ++ path ++ "\""
  | .valueErr msg => msg
  | .aborted => "Aborted"

/-- Log severity of the Python `logging` calls used by the script. -/
inductive LogLevel where
  | error
  | warning
  | info
  deriving DecidableEq, Repr

/-- Observable side effects of one invocation: log lines, the single
remote query, and the output-file write (`workbook.save`). -/
inductive Effect where
  | log (lvl : LogLevel) (msg : LogMsg)
  | fetch (query : String)
  | saveFile (filename : String)
  deriving DecidableEq, Repr

def Effect.isFetch : Effect → Bool
  | .fetch _ => true
  | _ => false

def Effect.isSave : Effect → Bool
  | .saveFile _ => true
  | _ => false

def Effect.isLog : Effect → Bool
  | .log _ _ => true
  | _ => false

def Effect.isNoTasksLog : Effect → Bool
  | .log .info .noTasks => true
  | _ => false

/-- The Python exceptions relevant to `run`: `ValueError` (caught),
`KeyboardInterrupt` (caught) and `jira.JIRAError` (not caught — it is not
a `ValueError`). -/
inductive PyExc where
  | valueError (msg : String)
  | keyboardInterrupt
  | jiraError (msg : String)
  deriving DecidableEq, Repr

/-- The `--blacklist` argument after `parse_args` validated it: the path
and the lines of the file it points to. -/
structure BlacklistFile where
  path : String
  lines : List String
  deriving DecidableEq, Repr

/-- Parsed command-line arguments (`argparse.Namespace`). -/
structure Args where
  date : Date
  business_days : Option Int
  force_overwrite : Bool
  blacklistFile : Option BlacklistFile
  deriving DecidableEq, Repr

/-- The ambient world of one invocation: the files already present in the
working directory, the directory name itself (for the exported-path log),
and what the single remote query would return — a list of issues, or a
`jira.JIRAError` failure. -/
structure Env where
  existingFiles : List String
  cwd : String
  fetchResult : Except String (List Issue)

/-- The log lines of `blacklist`: the blacklist-path notice, then the
skipped count when positive. -/
def blacklistEffects (blacklistFile : Option BlacklistFile)
    (issues : List Issue) : List Effect :=
  match blacklistFile with
  | none => []
  | some f =>
      let skipped := (blacklistLoop (parseBlacklistLines f.lines) issues).1
      [.log .info (.usingBlacklist f.path)]
        ++ (if skipped > 0 then [.log .info (.skipped skipped)] else [])

/-- The log line of `month_hours`, with the resolved business-day count. -/
def monthHoursEffects (date : Date) (business_days : Option Int) :
    List Effect :=
  match business_days with
  | some b => [.log .info (.businessDays b)]
  | none =>
      [.log .info (.businessDays
        (networkdays (ratadie date.year date.month 1)
          (ratadie date.year date.month (month_days date)) : Int))]

/-- Effect-trace model of `main(args)`: check the output collision, fetch
via the JQL query, filter through the blacklist, then either export the
spreadsheet (a `saveFile` effect plus the exported-path log) or report
that there were no tasks. The second component is the exception escaping
`main`, if any (only the remote fetch can raise here). -/
def mainModel (args : Args) (env : Env) : List Effect × Option PyExc :=
  let filename := reportFilename args.date
  if reportFilename args.date ∈ env.existingFiles
      ∧ args.force_overwrite = false then
    ([.log .error (.collision filename)], none)
  else
    match env.fetchResult with
    | .error e =>
        ([.log .info .querying, .fetch (jql args.date)], some (.jiraError e))
    | .ok fetched =>
        let issues := blacklistKept (args.blacklistFile.map BlacklistFile.lines) fetched
        let pre := [Effect.log .info .querying, Effect.fetch (jql args.date)]
          ++ blacklistEffects args.blacklistFile fetched
        if issues.length > 0 then
          (pre ++ [.log .info (.found issues.length)]
            ++ monthHoursEffects args.date args.business_days
            ++ [.saveFile filename,
                .log .info (.exported (env.cwd ++ "/" ++ filename))], none)
        else
          (pre ++ [.log .info .noTasks], none)

theorem blacklistEffects_noTasks_count (blacklistFile : Option BlacklistFile)
    (issues : List Issue) :
    (blacklistEffects blacklistFile issues).countP Effect.isNoTasksLog = 0 := by
  cases blacklistFile with
  | none => rfl
  | some f =>
    by_cases h : (blacklistLoop (parseBlacklistLines f.lines) issues).1 > 0
    · simp [blacklistEffects, h, List.countP_cons, Effect.isNoTasksLog]
    · simp [blacklistEffects, h, List.countP_cons, Effect.isNoTasksLog]

theorem blacklistEffects_save_count (blacklistFile : Option BlacklistFile)
    (issues : List Issue) :
    (blacklistEffects blacklistFile issues).countP Effect.isSave = 0 := by
  cases blacklistFile with
  | none => rfl
  | some f =>
    by_cases h : (blacklistLoop (parseBlacklistLines f.lines) issues).1 > 0
    · simp [blacklistEffects, h, List.countP_cons, Effect.isSave]
    · simp [blacklistEffects, h, List.countP_cons, Effect.isSave]

/-- C4: when the output file already exists and the force-overwrite flag
was not given, `main` stops at the collision check — its whole trace is the
single user-facing error log, with zero remote fetches and zero file
writes, and no exception. -/
theorem collision_aborts_without_side_effects (args : Args) (env : Env)
    (hexists : reportFilename args.date ∈ env.existingFiles)
    (hforce : args.force_overwrite = false) :
    mainModel args env
      = ([.log .error (.collision (reportFilename args.date))], none)
    ∧ (mainModel args env).1.countP Effect.isFetch = 0
    ∧ (mainModel args env).1.countP Effect.isSave = 0 := by
  have h : mainModel args env
      = ([.log .error (.collision (reportFilename args.date))], none) := by
    rw [mainModel, if_pos ⟨hexists, hforce⟩]
  exact ⟨h, by rw [h]; rfl, by rw [h]; rfl⟩

/-- C4 witness: the 2021/02 run against a directory already holding
`Jira_2021_February.xls`, without `-f`: the trace is exactly the collision
error log. -/
theorem collision_aborts_without_side_effects_witness :
    reportFilename ⟨2021, 2, 1⟩ ∈ ["Jira_2021_February.xls"]
    ∧ (mainModel ⟨⟨2021, 2, 1⟩, none, false, none⟩
        ⟨["Jira_2021_February.xls"], "/work", .ok []⟩).1.countP
          Effect.isFetch = 0
    ∧ (mainModel ⟨⟨2021, 2, 1⟩, none, false, none⟩
        ⟨["Jira_2021_February.xls"], "/work", .ok []⟩).1.countP
          Effect.isSave = 0 :=
  ⟨by decide,
   (collision_aborts_without_side_effects ⟨⟨2021, 2, 1⟩, none, false, none⟩
     ⟨["Jira_2021_February.xls"], "/work", .ok []⟩ (by decide) rfl).2.1,
   (collision_aborts_without_side_effects ⟨⟨2021, 2, 1⟩, none, false, none⟩
     ⟨["Jira_2021_February.xls"], "/work", .ok []⟩ (by decide) rfl).2.2⟩

/-- C5: when the fetch succeeds but zero issues remain after exclusion
filtering, `main` raises nothing, writes no output file, and logs the
no-tasks message exactly once. -/
theorem no_tasks_no_file_written (args : Args) (env : Env)
    (fetched : List Issue)
    (hcol : ¬(reportFilename args.date ∈ env.existingFiles
      ∧ args.force_overwrite = false))
    (hfetch : env.fetchResult = .ok fetched)
    (hempty : blacklistKept (args.blacklistFile.map BlacklistFile.lines)
      fetched = []) :
    (mainModel args env).2 = none
    ∧ (mainModel args env).1.countP Effect.isSave = 0
    ∧ (mainModel args env).1.countP Effect.isNoTasksLog = 1 := by
  have h : mainModel args env
      = ([Effect.log .info .querying, Effect.fetch (jql args.date)]
          ++ blacklistEffects args.blacklistFile fetched
          ++ [Effect.log .info .noTasks], none) := by
    rw [mainModel, if_neg hcol, hfetch]
    simp [hempty]
  refine ⟨by rw [h], ?_, ?_⟩
  · rw [h]
    simp only [List.countP_append, blacklistEffects_save_count]
    rfl
  · rw [h]
    simp only [List.countP_append, blacklistEffects_noTasks_count]
    rfl

/-- C5 witness: a 2021/03 run into an empty directory whose fetch returns
no issues: no save effect and exactly one no-tasks log line. -/
theorem no_tasks_no_file_written_witness :
    (mainModel ⟨⟨2021, 3, 1⟩, none, false, none⟩ ⟨[], "/work", .ok []⟩).2
      = none
    ∧ (mainModel ⟨⟨2021, 3, 1⟩, none, false, none⟩
        ⟨[], "/work", .ok []⟩).1.countP Effect.isSave = 0
    ∧ (mainModel ⟨⟨2021, 3, 1⟩, none, false, none⟩
        ⟨[], "/work", .ok []⟩).1.countP Effect.isNoTasksLog = 1 :=
  no_tasks_no_file_written ⟨⟨2021, 3, 1⟩, none, false, none⟩
    ⟨[], "/work", .ok []⟩ [] (by decide) rfl rfl

/-- C10: two resolved dates sharing year and month produce the same JQL
query string, the same total hours when no business-day override is given,
and the same report title and output filename — the observable output
depends only on the year and month components. -/
theorem output_depends_only_on_year_month (d1 d2 : Date)
    (hy : d1.year = d2.year) (hm : d1.month = d2.month) :
    jql d1 = jql d2 ∧ month_hours d1 none = month_hours d2 none
    ∧ reportTitle d1 = reportTitle d2
    ∧ reportFilename d1 = reportFilename d2 := by
  obtain ⟨y1, m1, a1⟩ := d1
  obtain ⟨y2, m2, a2⟩ := d2
  simp only at hy hm
  subst hy
  subst hm
  exact ⟨rfl, rfl, rfl, rfl⟩

/-- C10 witness: 2021-02-01 and 2021-02-28 give identical query, hours,
title and filename. -/
theorem output_depends_only_on_year_month_witness :
    jql ⟨2021, 2, 1⟩ = jql ⟨2021, 2, 28⟩
    ∧ month_hours ⟨2021, 2, 1⟩ none = month_hours ⟨2021, 2, 28⟩ none
    ∧ reportTitle ⟨2021, 2, 1⟩ = reportTitle ⟨2021, 2, 28⟩
    ∧ reportFilename ⟨2021, 2, 1⟩ = reportFilename ⟨2021, 2, 28⟩ :=
  output_depends_only_on_year_month ⟨2021, 2, 1⟩ ⟨2021, 2, 28⟩ rfl rfl

def Effect.isErrorLog : Effect → Bool
  | .log .error _ => true
  | _ => false

/-- How one invocation of `run` can go: `parse_args` raises `ValueError`
for a malformed `--month` argument (the `strptime` message, modelled as a
parameter) or for an invalid `--blacklist` path; a `KeyboardInterrupt` can
arrive while the run waits on the user; otherwise `main` runs on the
parsed arguments. -/
inductive Invocation where
  | malformedDate (msg : String)
  | badBlacklistPath (path : String)
  | interrupted
  | ok (args : Args)

/-- Effect-trace model of `run()`: `main(parse_args())` inside
`try/except`, where `except ValueError` logs the error text and
`except KeyboardInterrupt` logs the warning `Aborted`. Any other
exception — in particular `jira.JIRAError` from the fetch, which is not a
`ValueError` — escapes `run` uncaught; the boolean records that escape
(the interpreter then prints a raw stack trace). -/
def runModel (inv : Invocation) (env : Env) : List Effect × Bool :=
  match inv with
  | .malformedDate msg => ([.log .error (.valueErr msg)], false)
  | .badBlacklistPath path =>
      ([.log .error
        (.valueErr ("\"" ++ path ++ "\" is not a valid path"))], false)
  | .interrupted => ([.log .warning .aborted], false)
  | .ok args =>
      match mainModel args env with
      | (effs, none) => (effs, false)
      | (effs, some (.valueError msg)) =>
          (effs ++ [.log .error (.valueErr msg)], false)
      | (effs, some .keyboardInterrupt) =>
          (effs ++ [.log .warning .aborted], false)
      | (effs, some (.jiraError _)) => (effs, true)

/-- C8 counterexample: a remote fetch failure (an expected failure kind) is
not reported via a log line at all — `run` catches only `ValueError` and
`KeyboardInterrupt`, so the `jira.JIRAError` escapes as an uncaught
exception, i.e. a raw stack trace: on a concrete run whose fetch fails,
the escape flag is true and the trace holds zero error-log lines. -/
theorem remote_failure_raw_stack_trace_counterexample :
    (runModel (.ok ⟨⟨2021, 2, 1⟩, none, false, none⟩)
      ⟨[], "/work", .error "401 Unauthorized"⟩).2 = true
    ∧ (runModel (.ok ⟨⟨2021, 2, 1⟩, none, false, none⟩)
        ⟨[], "/work", .error "401 Unauthorized"⟩).1.countP
          Effect.isErrorLog = 0 := by
  decide

/-- C8 amended: a malformed date argument, an invalid exclusion-file path,
an output-file collision and a user interruption are each reported exactly
once via a single log line with no raw stack trace and no output written
(interruption logs a warning and exits cleanly); a remote fetch/auth/query
failure also terminates the run without writing output, but it surfaces as
an uncaught exception (raw stack trace) rather than a log line. -/
theorem expected_failures_terminal_and_reported :
    (∀ (msg : String) (env : Env),
      runModel (.malformedDate msg) env
        = ([.log .error (.valueErr msg)], false))
    ∧ (∀ (path : String) (env : Env),
        runModel (.badBlacklistPath path) env
          = ([.log .error
              (.valueErr ("\"" ++ path ++ "\" is not a valid path"))], false))
    ∧ (∀ env : Env,
        runModel .interrupted env = ([.log .warning .aborted], false))
    ∧ (∀ (args : Args) (env : Env),
        reportFilename args.date ∈ env.existingFiles →
        args.force_overwrite = false →
        runModel (.ok args) env
          = ([.log .error (.collision (reportFilename args.date))], false))
    ∧ (∀ (args : Args) (env : Env) (msg : String),
        ¬(reportFilename args.date ∈ env.existingFiles
          ∧ args.force_overwrite = false) →
        env.fetchResult = .error msg →
        (runModel (.ok args) env).2 = true
        ∧ (runModel (.ok args) env).1.countP Effect.isSave = 0
        ∧ (runModel (.ok args) env).1.countP Effect.isErrorLog = 0) := by
  refine ⟨fun _ _ => rfl, fun _ _ => rfl, fun _ => rfl, ?_, ?_⟩
  · intro args env hexists hforce
    have h : mainModel args env
        = ([.log .error (.collision (reportFilename args.date))], none) := by
      rw [mainModel, if_pos ⟨hexists, hforce⟩]
    simp [runModel, h]
  · intro args env msg hcol hfetch
    have h : mainModel args env
        = ([.log .info .querying, .fetch (jql args.date)],
           some (.jiraError msg)) := by
      rw [mainModel, if_neg hcol, hfetch]
    refine ⟨?_, ?_, ?_⟩ <;>
      simp [runModel, h, Effect.isSave, Effect.isErrorLog]

/-- C8 witness: the collision case on an existing `Jira_2021_February.xls`
run is one error log line with no stack trace, and the failed-fetch case
escapes with no save and no error log. -/
theorem expected_failures_terminal_and_reported_witness :
    runModel (.ok ⟨⟨2021, 2, 1⟩, none, false, none⟩)
      ⟨["Jira_2021_February.xls"], "/work", .ok []⟩
      = ([.log .error (.collision (reportFilename ⟨2021, 2, 1⟩))], false)
    ∧ ((runModel (.ok ⟨⟨2021, 3, 1⟩, none, false, none⟩)
          ⟨[], "/work", .error "503"⟩).2 = true
        ∧ (runModel (.ok ⟨⟨2021, 3, 1⟩, none, false, none⟩)
            ⟨[], "/work", .error "503"⟩).1.countP Effect.isSave = 0
        ∧ (runModel (.ok ⟨⟨2021, 3, 1⟩, none, false, none⟩)
            ⟨[], "/work", .error "503"⟩).1.countP Effect.isErrorLog = 0) :=
  ⟨expected_failures_terminal_and_reported.2.2.2.1
    ⟨⟨2021, 2, 1⟩, none, false, none⟩
    ⟨["Jira_2021_February.xls"], "/work", .ok []⟩ (by decide) rfl,
   expected_failures_terminal_and_reported.2.2.2.2
    ⟨⟨2021, 3, 1⟩, none, false, none⟩ ⟨[], "/work", .error "503"⟩ "503"
    (by decide) rfl⟩

/-- A spreadsheet cell value as written by the script: a plain string, the
integer total hours, a float story-points value (exact `ℚ`), a formula
(`xlwt.Formula`, carrying its text), a datetime (carrying the source ISO
text), or a blank cell (Python `None`). -/
inductive CellValue where
  | str (s : String)
  | int (n : Int)
  | num (q : ℚ)
  | formula (text : String)
  | datetime (iso : String)
  | blank
  deriving DecidableEq, Repr

/-- Model of Python `len(str(value))` as computed inside `write`. String
and int cells stringify exactly; for float, formula and datetime objects
the Python `str()` text is environment-specific, so their lengths are
modelled by fixed executable stand-ins (the formula text itself for
formulas, the ISO text for datetimes, the numerator digits for floats);
`len(str(None)) = 4`. -/
def strLen : CellValue → Nat
  | .str s => s.length
  | .int n => (toString n).length
  | .num q => (toString q.num).length
  | .formula text => text.length
  | .datetime iso => iso.length
  | .blank => 4

/-- One written cell: sheet row, sheet column, value. -/
structure Cell where
  row : Nat
  col : Nat
  val : CellValue
  deriving DecidableEq, Repr

/-- The state of the `xlwt` worksheet built by `xls_export`: the sheet
title, the cells written so far (in write order), the per-column widths,
the per-row heights, and — as specification instrumentation only — the log
of `(column, stringified length)` pairs recorded by the width-fitting
`write` helper. -/
structure Sheet where
  title : String
  cells : List Cell
  colWidth : Nat → Nat
  rowHeight : Nat → Nat
  autofit : List (Nat × Nat)

/-- The default `xlwt` column width (`0x0B92`), the width a column keeps
until a `write` call exceeds it. -/
def defaultColWidth : Nat := 2962

/-- A fresh worksheet: `workbook.add_sheet(title)` followed by
`row_height = sheet.row_default_height = 384`. -/
def emptySheet (title : String) : Sheet :=
  { title := title, cells := [], colWidth := fun _ => defaultColWidth,
    rowHeight := fun _ => 384, autofit := [] }

/-- Bare `sheet.write(row, col, value, style)` with no width fitting (used
only for the per-row hours formula cell). -/
def sheetWriteRaw (s : Sheet) (row col : Nat) (v : CellValue) : Sheet :=
  { s with cells := s.cells ++ [⟨row, col, v⟩] }

/-- The `write` helper of the script: write the cell, then auto-fit the
column — `text_width = len(str(value)) * 256`, and the column width is
raised to `text_width` whenever it is below it. -/
def write (s : Sheet) (row col : Nat) (v : CellValue) : Sheet :=
  let s1 : Sheet :=
    { s with cells := s.cells ++ [⟨row, col, v⟩],
             autofit := s.autofit ++ [(col, strLen v)] }
  let textWidth := strLen v * 256
  if s.colWidth col < textWidth then
    { s1 with colWidth := fun c => if c = col then textWidth else s.colWidth c }
  else s1

/-- `sheet.row(r).height = row_height` (the script always assigns 384). -/
def setRowHeight (s : Sheet) (r h : Nat) : Sheet :=
  { s with rowHeight := fun r2 => if r2 = r then h else s.rowHeight r2 }

/-- `make_link(url)`: the interactive hyperlink formula text. -/
def make_link (url : String) : String :=
  "HYPERLINK(\"" ++ url ++ "\")"

/-- The header labels of the seven visible columns. -/
def column_headers : List String :=
  ["Task ID", "Task Key", "Task URL", "Project Name", "Created At",
   "Description", "Worklog"]

/-- How a story-points value lands in the helper column: the float value,
or a blank cell when `story_points` returned `None`. -/
def storyCell : Option ℚ → CellValue
  | some q => .num q
  | none => .blank

/-- The header loop of `xls_export`: write each header bold into row 0 and
set the header row height. -/
def writeHeaders (s : Sheet) : Sheet :=
  column_headers.enum.foldl
    (fun s2 p => setRowHeight (write s2 0 p.1 (.str p.2)) 0 384) s

/-- One iteration of the issue loop of `xls_export` for the 1-indexed
`row`: set the row height, write the six visible value cells and the
hours-formula cell (the latter via bare `sheet.write`, not the fitting
helper), then write the story points into the hidden helper column 7. -/
def writeIssueRow (all : List Issue) (s : Sheet) (row : Nat)
    (issue : Issue) : Sheet :=
  let s1 := setRowHeight s row 384
  let s2 := write s1 row 0 (.str issue.id)
  let s3 := write s2 row 1 (.str issue.key)
  let s4 := write s3 row 2 (.formula (make_link issue.permalink))
  let s5 := write s4 row 3 (.str issue.projectName)
  let s6 := write s5 row 4 (.datetime issue.created)
  let s7 := write s6 row 5 (.str issue.summary)
  let s8 := sheetWriteRaw s7 row 6 (.formula (hours_worked row all))
  write s8 row 7 (storyCell (story_points issue))

/-- The issue loop `for row, issue in enumerate(issues, 1)`. -/
def writeRows (all : List Issue) : Sheet → Nat → List Issue → Sheet
  | s, _, [] => s
  | s, row, issue :: rest =>
      writeRows all (writeIssueRow all s row issue) (row + 1) rest

/-- `xls_export(issues, hours, title, filename)` up to the `workbook.save`
call (the save is an `Effect` in the pipeline model): headers, one row per
issue starting at row 1, then the raw total hours into the hidden cell at
row 0 of helper column 7 (spreadsheet cell H1). -/
def xls_export (issues : List Issue) (hours : Int) (title : String) :
    Sheet :=
  write (writeRows issues (writeHeaders (emptySheet title)) 1 issues)
    0 7 (.int hours)

/-- The value a spreadsheet reader sees in a cell: the last value written
at that position, if any. -/
def cellAt (s : Sheet) (row col : Nat) : Option CellValue :=
  ((s.cells.filter (fun c => decide (c.row = row ∧ c.col = col))).map
    Cell.val).getLast?

/-- The eight cells one issue-loop iteration appends, in write order. -/
def rowCellList (all : List Issue) (row : Nat) (issue : Issue) :
    List Cell :=
  [⟨row, 0, .str issue.id⟩, ⟨row, 1, .str issue.key⟩,
   ⟨row, 2, .formula (make_link issue.permalink)⟩,
   ⟨row, 3, .str issue.projectName⟩, ⟨row, 4, .datetime issue.created⟩,
   ⟨row, 5, .str issue.summary⟩, ⟨row, 6, .formula (hours_worked row all)⟩,
   ⟨row, 7, storyCell (story_points issue)⟩]

/-- The cells of all issue rows from the 1-indexed `row` on. -/
def rowsCells (all : List Issue) : Nat → List Issue → List Cell
  | _, [] => []
  | row, issue :: rest => rowCellList all row issue ++ rowsCells all (row + 1) rest

/-- The seven header cells of row 0. -/
def headerCells : List Cell :=
  [⟨0, 0, .str "Task ID"⟩, ⟨0, 1, .str "Task Key"⟩, ⟨0, 2, .str "Task URL"⟩,
   ⟨0, 3, .str "Project Name"⟩, ⟨0, 4, .str "Created At"⟩,
   ⟨0, 5, .str "Description"⟩, ⟨0, 6, .str "Worklog"⟩]

theorem write_cells (s : Sheet) (row col : Nat) (v : CellValue) :
    (write s row col v).cells = s.cells ++ [⟨row, col, v⟩] := by
  simp only [write]
  split <;> rfl

theorem sheetWriteRaw_cells (s : Sheet) (row col : Nat) (v : CellValue) :
    (sheetWriteRaw s row col v).cells = s.cells ++ [⟨row, col, v⟩] := rfl

theorem setRowHeight_cells (s : Sheet) (r h : Nat) :
    (setRowHeight s r h).cells = s.cells := rfl

theorem writeIssueRow_cells (all : List Issue) (s : Sheet) (row : Nat)
    (issue : Issue) :
    (writeIssueRow all s row issue).cells
      = s.cells ++ rowCellList all row issue := by
  simp [writeIssueRow, write_cells, sheetWriteRaw_cells, setRowHeight_cells,
    rowCellList]

theorem writeRows_cells (all : List Issue) (l : List Issue) (s : Sheet)
    (row : Nat) :
    (writeRows all s row l).cells = s.cells ++ rowsCells all row l := by
  induction l generalizing s row with
  | nil => simp [writeRows, rowsCells]
  | cons issue rest ih =>
    rw [writeRows, rowsCells, ih, writeIssueRow_cells, List.append_assoc]

theorem writeHeaders_cells (s : Sheet) :
    (writeHeaders s).cells = s.cells ++ headerCells := by
  simp [writeHeaders, column_headers, List.enum, List.enumFrom,
    write_cells, setRowHeight_cells, headerCells]

theorem xls_export_cells (issues : List Issue) (hours : Int)
    (title : String) :
    (xls_export issues hours title).cells
      = headerCells ++ rowsCells issues 1 issues
          ++ [⟨0, 7, .int hours⟩] := by
  rw [xls_export, write_cells, writeRows_cells, writeHeaders_cells]
  simp [emptySheet]

theorem headerCells_filter_ne_zero (r c : Nat) (hr : r ≠ 0) :
    headerCells.filter (fun cell => decide (cell.row = r ∧ cell.col = c))
      = [] := by
  have h0 : ¬(0 = r) := fun h => hr h.symm
  simp [headerCells, h0]

theorem rowCellList_filter_ne (all : List Issue) (row : Nat) (issue : Issue)
    (r c : Nat) (hr : row ≠ r) :
    (rowCellList all row issue).filter
      (fun cell => decide (cell.row = r ∧ cell.col = c)) = [] := by
  simp [rowCellList, hr]

theorem rowsCells_filter_lt (all : List Issue) (l : List Issue)
    (start r c : Nat) (h : r < start) :
    (rowsCells all start l).filter
      (fun cell => decide (cell.row = r ∧ cell.col = c)) = [] := by
  induction l generalizing start with
  | nil => rfl
  | cons issue rest ih =>
    rw [rowsCells, List.filter_append,
      rowCellList_filter_ne all start issue r c (by omega),
      ih (start + 1) (by omega), List.append_nil]

theorem rowsCells_filter_at (all : List Issue) (l : List Issue)
    (start k : Nat) (h : k < l.length) (c : Nat) :
    (rowsCells all start l).filter
      (fun cell => decide (cell.row = start + k ∧ cell.col = c))
      = (rowCellList all (start + k) (l.get ⟨k, h⟩)).filter
          (fun cell => decide (cell.row = start + k ∧ cell.col = c)) := by
  induction l generalizing start k with
  | nil => exact absurd h (by simp)
  | cons issue rest ih =>
    cases k with
    | zero =>
      rw [rowsCells, List.filter_append,
        rowsCells_filter_lt all rest (start + 1) (start + 0) c (by omega),
        List.append_nil]
      rfl
    | succ k2 =>
      have hk2 : k2 < rest.length := by
        simpa using h
      rw [rowsCells, List.filter_append,
        rowCellList_filter_ne all start issue (start + (k2 + 1)) c (by omega)]
      have harith : start + (k2 + 1) = (start + 1) + k2 := by omega
      rw [List.nil_append]
      simp only [harith]
      rw [ih (start + 1) k2 hk2]
      rfl

theorem cellAt_export_row (issues : List Issue) (hours : Int)
    (title : String) (i c : Nat) (h : i < issues.length) :
    cellAt (xls_export issues hours title) (i + 1) c
      = (((rowCellList issues (i + 1) (issues.get ⟨i, h⟩)).filter
          (fun cell => decide (cell.row = i + 1 ∧ cell.col = c))).map
            Cell.val).getLast? := by
  rw [cellAt, xls_export_cells, List.filter_append, List.filter_append,
    headerCells_filter_ne_zero (i + 1) c (by omega)]
  have htot : ([(⟨0, 7, .int hours⟩ : Cell)]).filter
      (fun cell => decide (cell.row = i + 1 ∧ cell.col = c)) = [] := by
    simp
  rw [htot, List.nil_append, List.append_nil]
  have h1i : i + 1 = 1 + i := by omega
  simp only [h1i]
  rw [rowsCells_filter_at issues issues 1 i (by omega) c]

/-- A sample issue carrying 5 story points, for concrete evaluations. -/
def issueSP : Issue :=
  { id := "10001", key := "PROJ-1",
    permalink := "https://example.atlassian.net/browse/PROJ-1",
    projectName := "Proj", created := "2021-02-01T10:00:00.000+0000",
    summary := "task", storyPoints := some 5 }

/-- C2 counterexample: the value written into the hidden helper column
(column index 7, spreadsheet column H) for the first issue row is the
issue's story-points value (5 here), not the row's 1-based ordinal
position (which would be 1). -/
theorem helper_column_not_ordinal_counterexample :
    cellAt (xls_export [issueSP] 160 "2021_February") 1 7
      = some (.num 5)
    ∧ cellAt (xls_export [issueSP] 160 "2021_February") 1 7
        ≠ some (.num 1) := by
  decide

/-- C2 amended: for every retained issue at 1-indexed row position i among
n rows, the value written into the helper column H at row i+1 is the
issue's own story-points value (blank when absent) — not the row ordinal —
and the row's hours-worked cell is the live formula
`H(i+1)/SUM(H2:H(n+1))*H1` reading that helper column (and the total hours
H from the hidden cell H1, written at row 0 of the helper column) at
render time. -/
theorem helper_column_story_points_and_formula (issues : List Issue)
    (hours : Int) (title : String) (i : Nat) (h : i < issues.length) :
    cellAt (xls_export issues hours title) (i + 1) 7
      = some (storyCell (story_points (issues.get ⟨i, h⟩)))
    ∧ cellAt (xls_export issues hours title) (i + 1) 6
        = some (.formula (hours_worked (i + 1) issues))
    ∧ cellAt (xls_export issues hours title) 0 7 = some (.int hours) := by
  refine ⟨?_, ?_, ?_⟩
  · rw [cellAt_export_row issues hours title i 7 h]
    simp [rowCellList]
  · rw [cellAt_export_row issues hours title i 6 h]
    simp [rowCellList]
  · rw [cellAt, xls_export_cells, List.filter_append, List.filter_append,
      rowsCells_filter_lt issues issues 1 0 7 (by omega)]
    simp [headerCells]

/-- C2 witness: the one-issue export of `issueSP` with 160 total hours —
the helper cell H2 holds 5 story points, the hours cell holds the formula
`H2/SUM(H2:H2)*H1`, and H1 holds 160. -/
theorem helper_column_story_points_and_formula_witness :
    0 < [issueSP].length
    ∧ cellAt (xls_export [issueSP] 160 "T") 1 7
        = some (storyCell (story_points issueSP))
    ∧ cellAt (xls_export [issueSP] 160 "T") 1 6
        = some (.formula (hours_worked 1 [issueSP]))
    ∧ cellAt (xls_export [issueSP] 160 "T") 0 7 = some (.int 160) :=
  ⟨by decide,
   (helper_column_story_points_and_formula [issueSP] 160 "T" 0
     (by decide)).1,
   (helper_column_story_points_and_formula [issueSP] 160 "T" 0
     (by decide)).2.1,
   (helper_column_story_points_and_formula [issueSP] 160 "T" 0
     (by decide)).2.2⟩

/-- The width the spec predicts for a column (C9): 256 × the longest
stringified value among all cells of that column — the helper-less
`sheet.write` calls included. Modelled from the spec words: width
proportional to the longest stringified cell value in the column, with the
proportionality constant 256 per character the code declares. -/
def claimedColWidth (s : Sheet) (c : Nat) : Nat :=
  256 * (((s.cells.filter (fun cell => decide (cell.col = c))).map
    (fun cell => strLen cell.val)).foldr max 0)

/-- The width contributed by the width-fitting `write` calls alone:
256 × the longest recorded stringified length for the column. -/
def autoWidth (s : Sheet) (c : Nat) : Nat :=
  ((s.autofit.filter (fun p => decide (p.1 = c))).map
    (fun p => p.2 * 256)).foldr max 0

/-- Column widths track the fitting helper: every column's width is the
larger of the default width and `autoWidth`. -/
def WidthInv (s : Sheet) : Prop :=
  ∀ c, s.colWidth c = max defaultColWidth (autoWidth s c)

/-- Every row of the sheet has the script's fixed row height 384. -/
def HeightInv (s : Sheet) : Prop :=
  ∀ r, s.rowHeight r = 384

theorem foldr_max_concat (l : List Nat) (a : Nat) :
    (l ++ [a]).foldr max 0 = max (l.foldr max 0) a := by
  induction l with
  | nil => simp
  | cons x t ih =>
    simp only [List.cons_append, List.foldr_cons, ih]
    omega

theorem autoWidth_write (s : Sheet) (row col : Nat) (v : CellValue)
    (c : Nat) :
    autoWidth (write s row col v) c
      = if col = c then max (autoWidth s c) (strLen v * 256)
        else autoWidth s c := by
  have haf : (write s row col v).autofit = s.autofit ++ [(col, strLen v)] := by
    simp only [write]
    split <;> rfl
  rw [autoWidth, haf, List.filter_append, List.map_append]
  by_cases hc : col = c
  · subst hc
    rw [if_pos rfl]
    have hfil : List.filter (fun p => decide (p.1 = col)) [(col, strLen v)]
        = [(col, strLen v)] := by simp
    rw [hfil]
    have hmap : List.map (fun p : Nat × Nat => p.2 * 256) [(col, strLen v)]
        = [strLen v * 256] := rfl
    rw [hmap, foldr_max_concat]
    rfl
  · rw [if_neg hc]
    have hfil : List.filter (fun p => decide (p.1 = c)) [(col, strLen v)]
        = [] := by simp [hc]
    rw [hfil]
    simp [autoWidth]

theorem widthInv_write (s : Sheet) (row col : Nat) (v : CellValue)
    (hs : WidthInv s) : WidthInv (write s row col v) := by
  intro c
  have hw : (write s row col v).colWidth c
      = if s.colWidth col < strLen v * 256
        then (if c = col then strLen v * 256 else s.colWidth c)
        else s.colWidth c := by
    simp only [write]
    split <;> rfl
  rw [autoWidth_write, hw, hs c, hs col]
  rcases eq_or_ne c col with hc | hc
  · subst hc
    simp only [Nat.max_def]
    split_ifs <;> omega
  · simp only [Nat.max_def]
    split_ifs <;> omega

theorem widthInv_sheetWriteRaw (s : Sheet) (row col : Nat) (v : CellValue)
    (hs : WidthInv s) : WidthInv (sheetWriteRaw s row col v) := hs

theorem widthInv_setRowHeight (s : Sheet) (r h : Nat)
    (hs : WidthInv s) : WidthInv (setRowHeight s r h) := hs

theorem heightInv_write (s : Sheet) (row col : Nat) (v : CellValue)
    (hs : HeightInv s) : HeightInv (write s row col v) := by
  intro r
  have hh : (write s row col v).rowHeight r = s.rowHeight r := by
    simp only [write]
    split <;> rfl
  rw [hh]
  exact hs r

theorem heightInv_sheetWriteRaw (s : Sheet) (row col : Nat) (v : CellValue)
    (hs : HeightInv s) : HeightInv (sheetWriteRaw s row col v) := hs

theorem heightInv_setRowHeight (s : Sheet) (r : Nat)
    (hs : HeightInv s) : HeightInv (setRowHeight s r 384) := by
  intro r2
  rw [setRowHeight]
  by_cases h : r2 = r
  · simp [h]
  · simp only [h]
    simp [h, hs r2]

theorem widthInv_headers_fold (l : List (Nat × String)) (s : Sheet)
    (hs : WidthInv s) :
    WidthInv (l.foldl
      (fun s2 p => setRowHeight (write s2 0 p.1 (.str p.2)) 0 384) s) := by
  induction l generalizing s with
  | nil => exact hs
  | cons p t ih =>
    exact ih _ (widthInv_setRowHeight _ _ _ (widthInv_write _ _ _ _ hs))

theorem heightInv_headers_fold (l : List (Nat × String)) (s : Sheet)
    (hs : HeightInv s) :
    HeightInv (l.foldl
      (fun s2 p => setRowHeight (write s2 0 p.1 (.str p.2)) 0 384) s) := by
  induction l generalizing s with
  | nil => exact hs
  | cons p t ih =>
    exact ih _ (heightInv_setRowHeight _ _ (heightInv_write _ _ _ _ hs))

theorem widthInv_writeHeaders (s : Sheet) (hs : WidthInv s) :
    WidthInv (writeHeaders s) := by
  rw [writeHeaders]
  exact widthInv_headers_fold _ s hs

theorem heightInv_writeHeaders (s : Sheet) (hs : HeightInv s) :
    HeightInv (writeHeaders s) := by
  rw [writeHeaders]
  exact heightInv_headers_fold _ s hs

theorem widthInv_writeIssueRow (all : List Issue) (s : Sheet) (row : Nat)
    (issue : Issue) (hs : WidthInv s) :
    WidthInv (writeIssueRow all s row issue) := by
  rw [writeIssueRow]
  apply widthInv_write
  apply widthInv_sheetWriteRaw
  repeat apply widthInv_write
  exact widthInv_setRowHeight s row 384 hs

theorem heightInv_writeIssueRow (all : List Issue) (s : Sheet) (row : Nat)
    (issue : Issue) (hs : HeightInv s) :
    HeightInv (writeIssueRow all s row issue) := by
  rw [writeIssueRow]
  apply heightInv_write
  apply heightInv_sheetWriteRaw
  repeat apply heightInv_write
  exact heightInv_setRowHeight s row hs

theorem widthInv_writeRows (all : List Issue) (l : List Issue) (s : Sheet)
    (row : Nat) (hs : WidthInv s) : WidthInv (writeRows all s row l) := by
  induction l generalizing s row with
  | nil => exact hs
  | cons issue rest ih =>
    rw [writeRows]
    exact ih _ _ (widthInv_writeIssueRow all s row issue hs)

theorem heightInv_writeRows (all : List Issue) (l : List Issue) (s : Sheet)
    (row : Nat) (hs : HeightInv s) : HeightInv (writeRows all s row l) := by
  induction l generalizing s row with
  | nil => exact hs
  | cons issue rest ih =>
    rw [writeRows]
    exact ih _ _ (heightInv_writeIssueRow all s row issue hs)

theorem widthInv_emptySheet (title : String) :
    WidthInv (emptySheet title) := by
  intro c
  simp [emptySheet, autoWidth]

theorem heightInv_emptySheet (title : String) :
    HeightInv (emptySheet title) := fun _ => rfl

/-- C9 counterexample: in the export of one issue the Worklog column
(index 6) has final width 2962 — the `xlwt` default, because only its
seven-character header went through the width-fitting helper — while the
longest stringified value in that column is the sixteen-character formula
`H2/SUM(H2:H2)*H1`, so the spec-predicted width 256 × 16 = 4096 differs
from the actual one: not every column is auto-sized to its longest cell
value. -/
theorem autosize_worklog_counterexample :
    claimedColWidth (xls_export [issueSP] 160 "2021_March") 6 = 4096
    ∧ (xls_export [issueSP] 160 "2021_March").colWidth 6 = 2962
    ∧ claimedColWidth (xls_export [issueSP] 160 "2021_March") 6
        ≠ (xls_export [issueSP] 160 "2021_March").colWidth 6 := by
  decide

/-- C9 amended: columns are auto-sized only through the width-fitting
helper: every column's final width is the larger of the `xlwt` default
width and 256 × the longest stringified value among the cells written via
the helper — the per-row Worklog formula cells bypass the helper (bare
`sheet.write`), so the Worklog column is sized from its header alone — and
every row has positive height. -/
theorem columns_fit_helper_writes_rows_positive (issues : List Issue)
    (hours : Int) (title : String) :
    (∀ c, (xls_export issues hours title).colWidth c
      = max defaultColWidth (autoWidth (xls_export issues hours title) c))
    ∧ (∀ r, 0 < (xls_export issues hours title).rowHeight r) := by
  have hw : WidthInv (xls_export issues hours title) := by
    rw [xls_export]
    apply widthInv_write
    exact widthInv_writeRows issues issues _ 1
      (widthInv_writeHeaders _ (widthInv_emptySheet title))
  have hh : HeightInv (xls_export issues hours title) := by
    rw [xls_export]
    apply heightInv_write
    exact heightInv_writeRows issues issues _ 1
      (heightInv_writeHeaders _ (heightInv_emptySheet title))
  exact ⟨hw, fun r => by rw [hh r]; omega⟩

end JiraReport
